import Mathlib

/-!
# Castle Escape — verification of the game-state engine

Shallow embedding of the Castle Escape game engine found in `src/app.py`
(console version) and `src/main.py` (web version).  The two files share the
same world topology, player model and action-handler logic; they differ in
where the turn counter lives (a loop-local counter in `app.py`'s `game_loop`,
a `Player.turns` field incremented inside `move_player` in `main.py`) and in
that only `app.py` applies the late-game health decay.  Both variants are
embedded below.

Conventions of the embedding:
* Python strings stay `String`; the Python `set` of visited rooms becomes a
  `Finset String`; Python's unbounded `int` health becomes `Int`.
* The rooms dictionary becomes a function `String → Option Room`; mutating a
  room object in place becomes a functional override of that key (keys are
  never added or removed by the game).
* `input()` normalisation (`.title()`, `.lower()`) happens before the engine
  logic, so handlers take the already-normalised argument string.
* Handlers that print but never assign (e.g. `look_around`) return only an
  `Outcome`; handlers that mutate return the new state together with an
  `Outcome` classifying the message that was printed.
-/

namespace CastleEscape

/-- One room of the castle: flavour description, the association list from
direction words to destination room names (the `north`/`south`/`east`/`west`
keys of the Python room dict, in dict order), the items currently lying in the
room, and the `locked`/`dark` flags (Python `room.get("locked", False)` /
`room.get("dark", False)`, so absence of the key is embedded as `false`). -/
structure Room where
  description : String
  exits : List (String × String)
  items : List String
  locked : Bool
  dark : Bool
deriving DecidableEq

/-- The world graph: the Python `rooms` dictionary, as a partial map from room
name to `Room`.  Unknown names give `none` (Python would raise `KeyError`). -/
def World := String → Option Room

/-- Mutating one room object in place (`rooms[name]["items"].remove(...)`,
`rooms["Armory"]["locked"] = False`) becomes overriding that key. -/
def World.update (w : World) (name : String) (r : Room) : World :=
  fun m => if m = name then some r else w m

/-- Player state shared by both `src/app.py` and `src/main.py`.  The `turns`
field exists only in `main.py`'s `Player`; the `app.py` code never reads or
writes it, so carrying it here is harmless for the `app.py` semantics (whose
loop counter is modelled separately in `GameState.turns`). -/
structure Player where
  name : String
  position : String
  inventory : List String
  health : Int
  visited_rooms : Finset String
  turns : Nat
deriving DecidableEq

/-- `Player.add_item` (identical in both files): append if fewer than 4 items
are held and report `True`, otherwise leave the bag alone and report `False`. -/
def Player.add_item (p : Player) (item : String) : Player × Bool :=
  if p.inventory.length < 4 then
    ({p with inventory := p.inventory ++ [item]}, true)
  else
    (p, false)

/-- `Player.remove_item`: Python `list.remove` deletes the first occurrence,
which is `List.erase`; absent items leave the list unchanged and report
`False`. -/
def Player.remove_item (p : Player) (item : String) : Player × Bool :=
  if p.inventory.contains item then
    ({p with inventory := p.inventory.erase item}, true)
  else
    (p, false)

/-- `Player.has_item`: membership test on the inventory list. -/
def Player.has_item (p : Player) (item : String) : Bool :=
  p.inventory.contains item

/-- Classification of the message each handler prints (the `Outcome` of the
spec's Action Engine). -/
inductive Outcome where
  | ok
  | moved
  | itemTaken
  | noExit
  | locked
  | tooDark
  | nothingHere
  | notHere
  | bagFull
  | notHeld
  | emptyBag
  | noEffect
  | unknownRoom
deriving DecidableEq

/-- The fixed 10-room castle from `initialize_game` (identical topology, item
placement and flags in both source files). -/
def initial_rooms : World := fun name =>
  if name = "Entrance Hall" then some
    { description := "A grand entrance hall with a large oak door behind you."
      exits := [("north", "Courtyard"), ("east", "Library")]
      items := ["Torch"], locked := false, dark := false }
  else if name = "Courtyard" then some
    { description := "An overgrown courtyard with a fountain in the center."
      exits := [("south", "Entrance Hall"), ("north", "Guard Tower"),
                ("east", "Kitchen"), ("west", "Armory")]
      items := [], locked := false, dark := false }
  else if name = "Guard Tower" then some
    { description := "A tall tower with a view of the entire castle."
      exits := [("south", "Courtyard")]
      items := ["Crowbar"], locked := false, dark := false }
  else if name = "Library" then some
    { description := "A dusty library with shelves full of ancient books."
      exits := [("west", "Entrance Hall"), ("north", "Study")]
      items := ["Rusty Key", "Old Book"], locked := false, dark := false }
  else if name = "Kitchen" then some
    { description := "A large kitchen with pots and pans hanging from the ceiling."
      exits := [("west", "Courtyard"), ("south", "Dungeon")]
      items := ["Healing Herb"], locked := false, dark := false }
  else if name = "Armory" then some
    { description := "A room filled with weapons and armor. The door is locked."
      exits := [("east", "Courtyard")]
      items := ["Sword"], locked := true, dark := false }
  else if name = "Study" then some
    { description := "A small study with a desk and a mysterious map."
      exits := [("south", "Library")]
      items := ["Note"], locked := false, dark := false }
  else if name = "Dungeon" then some
    { description := "A dark, damp dungeon. It's hard to see without light."
      exits := [("north", "Kitchen"), ("east", "Secret Passage")]
      items := [], locked := false, dark := true }
  else if name = "Secret Passage" then some
    { description := "A hidden passage behind a bookcase."
      exits := [("west", "Dungeon"), ("north", "Throne Room")]
      items := [], locked := false, dark := false }
  else if name = "Throne Room" then some
    { description := "The castle's throne room with a glittering golden crown."
      exits := [("south", "Secret Passage")]
      items := ["Golden Crown"], locked := false, dark := false }
  else none

/-- The `rooms["Armory"].get("locked", False)` test of `move_player`.  In the
fixed world the Armory always exists; a missing Armory is embedded as
"not locked", which also matches `unlockArmory` doing nothing then. -/
def armoryLocked (w : World) : Bool :=
  ((w "Armory").map Room.locked).getD false

/-- The `rooms["Armory"]["locked"] = False` assignment of `move_player`. -/
def unlockArmory (w : World) : World :=
  match w "Armory" with
  | some r => w.update "Armory" {r with locked := false}
  | none => w

/-- `look_around` (both files): in a dark Dungeon without a Torch, bail out
with the "too dark" message; otherwise print the flavour line of every item
present.  The function only prints, so the embedding returns just the
`Outcome`. -/
def look_around (p : Player) (w : World) : Outcome :=
  match w p.position with
  | none => Outcome.unknownRoom
  | some room =>
    if p.position = "Dungeon" ∧ room.dark ∧ ¬ p.has_item "Torch" then
      Outcome.tooDark
    else
      Outcome.ok

/-- `pick_up_item` (both files; `app.py` reads the item name from `input()`,
`main.py` receives it as `item_name` — the embedding takes it as an argument).
Guard order follows the source: empty room first, then the locked-Armory
guard, then the darkness guard, then presence of the item, then bag
capacity. -/
def pick_up_item (p : Player) (w : World) (item : String) : Player × World × Outcome :=
  match w p.position with
  | none => (p, w, Outcome.unknownRoom)
  | some room =>
    if room.items.isEmpty then (p, w, Outcome.nothingHere)
    else if p.position = "Armory" ∧ room.locked then (p, w, Outcome.locked)
    else if p.position = "Dungeon" ∧ room.dark ∧ ¬ p.has_item "Torch" then
      (p, w, Outcome.tooDark)
    else if room.items.contains item then
      if (p.add_item item).2 then
        ((p.add_item item).1,
         w.update p.position {room with items := room.items.erase item},
         Outcome.itemTaken)
      else (p, w, Outcome.bagFull)
    else (p, w, Outcome.notHere)

/-- `move_player` of `src/app.py`: the chosen direction must be an exit key of
the current room; moving into a locked Armory consumes the Rusty Key and
clears the lock, or is rejected when the key is not held; a successful move
updates position and the visited set. -/
def move_player (p : Player) (w : World) (direction : String) : Player × World × Outcome :=
  match w p.position with
  | none => (p, w, Outcome.unknownRoom)
  | some room =>
    match room.exits.lookup direction with
    | none => (p, w, Outcome.noExit)
    | some new_position =>
      if new_position = "Armory" ∧ armoryLocked w then
        if p.has_item "Rusty Key" then
          ({(p.remove_item "Rusty Key").1 with
              position := new_position,
              visited_rooms :=
                insert new_position (p.remove_item "Rusty Key").1.visited_rooms},
           unlockArmory w, Outcome.moved)
        else (p, w, Outcome.locked)
      else
        ({p with position := new_position,
                 visited_rooms := insert new_position p.visited_rooms},
         w, Outcome.moved)

/-- `move_player` of `src/main.py`: same logic as the `app.py` version plus
`player.turns += 1` on every successful move; returns the success flag the
source returns.  (`main.py` tests `direction in room`, which for the direction
words supplied by the UI buttons coincides with membership in the exit keys.) -/
def move_player_main (p : Player) (w : World) (direction : String) : Player × World × Bool :=
  match w p.position with
  | none => (p, w, false)
  | some room =>
    match room.exits.lookup direction with
    | none => (p, w, false)
    | some new_position =>
      if new_position = "Armory" ∧ armoryLocked w then
        if p.has_item "Rusty Key" then
          ({(p.remove_item "Rusty Key").1 with
              position := new_position,
              visited_rooms :=
                insert new_position (p.remove_item "Rusty Key").1.visited_rooms,
              turns := (p.remove_item "Rusty Key").1.turns + 1},
           unlockArmory w, true)
        else (p, w, false)
      else
        ({p with position := new_position,
                 visited_rooms := insert new_position p.visited_rooms,
                 turns := p.turns + 1},
         w, true)

/-- `use_item` (both files): empty bag and not-held guards, then dispatch on
the literal item name.  Only "Healing Herb" mutates: heal +30 clamped at 100,
then consume the herb.  Torch, Sword and Crowbar print flavour only. -/
def use_item (p : Player) (item : String) : Player × Outcome :=
  if p.inventory.isEmpty then (p, Outcome.emptyBag)
  else if ¬ p.has_item item then (p, Outcome.notHeld)
  else if item = "Torch" then (p, Outcome.ok)
  else if item = "Healing Herb" then
    (({p with health := min 100 (p.health + 30)}).remove_item "Healing Herb" |>.1,
     Outcome.ok)
  else if item = "Sword" then (p, Outcome.ok)
  else if item = "Crowbar" then (p, Outcome.ok)
  else (p, Outcome.noEffect)

/-- `talk_to_character` (both files): only the Guard Tower branch can mutate,
consuming a held Healing Herb. -/
def talk_to_character (p : Player) : Player × Outcome :=
  if p.position = "Courtyard" then (p, Outcome.ok)
  else if p.position = "Guard Tower" then
    if p.has_item "Healing Herb" then ((p.remove_item "Healing Herb").1, Outcome.ok)
    else (p, Outcome.ok)
  else (p, Outcome.ok)

/-- `check_win_condition` (both files): at the Throne Room holding the Golden
Crown. -/
def check_win_condition (p : Player) : Bool :=
  (p.position == "Throne Room") && p.has_item "Golden Crown"

/-- The final score both files print on victory:
`len(player.visited_rooms) * 10 + len(player.inventory) * 5`. -/
def final_score (p : Player) : Nat :=
  p.visited_rooms.card * 10 + p.inventory.length * 5

/-- The commands `game_loop` of `src/app.py` dispatches on (anything else is
the `invalid` catch-all branch). -/
inductive Action where
  | move (direction : String)
  | look
  | take (item : String)
  | bag
  | use (item : String)
  | talk
  | map
  | quit
  | invalid
deriving DecidableEq

/-- Session status of the spec's state machine, as realised by `game_loop`:
returning `True` is the won state, returning `False` after the health check is
the lost state, returning `False` on the quit command is the quit state. -/
inductive Status where
  | active
  | won
  | lost
  | quitted
deriving DecidableEq

/-- One iteration's state of `game_loop` in `src/app.py`: the player, the
rooms dict, the loop-local `turns` counter and the session status. -/
structure GameState where
  player : Player
  world : World
  turns : Nat
  status : Status

/-- The state change performed by the action-dispatch block of `game_loop`
(`src/app.py`): `move` and `take` can change player and world, `use` and
`talk` only the player; `look`, `bag`, `map`, `help` and invalid commands
print but assign nothing. -/
def appActionEffect (p : Player) (w : World) (a : Action) : Player × World :=
  match a with
  | Action.move d => ((move_player p w d).1, (move_player p w d).2.1)
  | Action.take i => ((pick_up_item p w i).1, (pick_up_item p w i).2.1)
  | Action.use i => ((use_item p i).1, w)
  | Action.talk => ((talk_to_character p).1, w)
  | _ => (p, w)

/-- One iteration of `game_loop` in `src/app.py`: terminal states accept no
further actions; otherwise `turns += 1` at the top of the loop, the quit
command returns immediately, the win check runs after the action, and once the
incremented counter exceeds 50 the player loses 5 health, dropping to the lost
state at health ≤ 0. -/
def appStep (s : GameState) (a : Action) : GameState :=
  if s.status ≠ Status.active then s
  else if a = Action.quit then
    {s with turns := s.turns + 1, status := Status.quitted}
  else if check_win_condition (appActionEffect s.player s.world a).1 then
    { player := (appActionEffect s.player s.world a).1,
      world := (appActionEffect s.player s.world a).2,
      turns := s.turns + 1, status := Status.won }
  else if 50 < s.turns + 1 then
    if (appActionEffect s.player s.world a).1.health - 5 ≤ 0 then
      { player := {(appActionEffect s.player s.world a).1 with
          health := (appActionEffect s.player s.world a).1.health - 5},
        world := (appActionEffect s.player s.world a).2,
        turns := s.turns + 1, status := Status.lost }
    else
      { player := {(appActionEffect s.player s.world a).1 with
          health := (appActionEffect s.player s.world a).1.health - 5},
        world := (appActionEffect s.player s.world a).2,
        turns := s.turns + 1, status := Status.active }
  else
    { player := (appActionEffect s.player s.world a).1,
      world := (appActionEffect s.player s.world a).2,
      turns := s.turns + 1, status := Status.active }

/-- Run a sequence of actions through `game_loop` iterations. -/
def appRun (s : GameState) : List Action → GameState
  | [] => s
  | a :: rest => appRun (appStep s a) rest

/-- Fresh player as built by `initialize_game` (`app.py`) and the `Player`
constructor (`main.py`): Entrance Hall, empty bag, health 100, the starting
room already visited, zero turns. -/
def initialPlayer (name : String) : Player :=
  { name := name, position := "Entrance Hall", inventory := [], health := 100,
    visited_rooms := {"Entrance Hall"}, turns := 0 }

/-- Initial `game_loop` state: fresh player, fresh world, `turns = 0`,
session active. -/
def initialState (name : String) : GameState :=
  { player := initialPlayer name, world := initial_rooms, turns := 0,
    status := Status.active }

/-- Actions of the web version (`src/main.py`): each UI button calls one
handler directly (there is no dispatching loop and no quit/decay logic). -/
inductive MAction where
  | move (direction : String)
  | take (item : String)
  | use (item : String)
  | talk
  | look
deriving DecidableEq

/-- State change of one `main.py` handler invocation. -/
def mainApply (p : Player) (w : World) (a : MAction) : Player × World :=
  match a with
  | MAction.move d => ((move_player_main p w d).1, (move_player_main p w d).2.1)
  | MAction.take i => ((pick_up_item p w i).1, (pick_up_item p w i).2.1)
  | MAction.use i => ((use_item p i).1, w)
  | MAction.talk => ((talk_to_character p).1, w)
  | MAction.look => (p, w)

/-- Run a sequence of `main.py` handler invocations. -/
def mainRun (p : Player) (w : World) : List MAction → Player × World
  | [] => (p, w)
  | a :: rest => mainRun (mainApply p w a).1 (mainApply p w a).2 rest

/-- Number of successful Move actions in a `main.py` action sequence: a move
counts when `move_player` returns `True` at the state it is invoked in. -/
def mainSuccMoves (p : Player) (w : World) : List MAction → Nat
  | [] => 0
  | a :: rest =>
    (match a with
     | MAction.move d => if (move_player_main p w d).2.2 then 1 else 0
     | _ => 0) + mainSuccMoves (mainApply p w a).1 (mainApply p w a).2 rest

/-- Number of successful Move actions in an `app.py` action sequence: a move
counts when `move_player` runs (session active) and reports `moved`. -/
def appSuccMoves (s : GameState) : List Action → Nat
  | [] => 0
  | a :: rest =>
    (match a with
     | Action.move d =>
       if s.status = Status.active ∧ (move_player s.player s.world d).2.2 = Outcome.moved
       then 1 else 0
     | _ => 0) + appSuccMoves (appStep s a) rest

/-- Run a sequence of Take invocations (`pick_up_item` applied repeatedly),
one item name per attempt. -/
def takeRun (p : Player) (w : World) : List String → Player × World
  | [] => (p, w)
  | i :: rest => takeRun (pick_up_item p w i).1 (pick_up_item p w i).2.1 rest

/-- The dictionary produced by `Player.to_dict` in `src/main.py`: the visited
set is listed out (`list(self.visited_rooms)`); the embedding lists it in
sorted order, one definite enumeration of the set. -/
structure PlayerData where
  name : String
  position : String
  inventory : List String
  health : Int
  visited_rooms : List String
  turns : Nat
deriving DecidableEq

/-- `Player.to_dict` of `src/main.py`. -/
def Player.to_dict (p : Player) : PlayerData :=
  { name := p.name, position := p.position, inventory := p.inventory,
    health := p.health,
    visited_rooms := p.visited_rooms.sort (· ≤ ·), turns := p.turns }

/-- `Player.from_dict` of `src/main.py`: `cls(data['name'])` runs an
`__init__` that only initialises attributes when the name is truthy; with a
falsy (empty) name the constructed object never receives a `name` attribute,
an unusable partial object embedded here as `none`.  With a non-empty name
every field is then overwritten from the dictionary, the visited list turning
back into a set (`set(data['visited_rooms'])`). -/
def Player.from_dict (d : PlayerData) : Option Player :=
  if d.name = "" then none
  else some
    { name := d.name, position := d.position, inventory := d.inventory,
      health := d.health, visited_rooms := d.visited_rooms.toFinset,
      turns := d.turns }

/-! ## Helper lemmas -/

/-- Unlocking the Armory indeed leaves it unlocked. -/
theorem armoryLocked_unlockArmory (w : World) : armoryLocked (unlockArmory w) = false := by
  unfold unlockArmory armoryLocked
  cases hw : w "Armory" with
  | none => simp [hw]
  | some r => simp [World.update]

/-- Reading the Armory lock through an override of an arbitrary key. -/
theorem armoryLocked_update (w : World) (n : String) (r : Room) :
    armoryLocked (w.update n r) = if "Armory" = n then r.locked else armoryLocked w := by
  unfold armoryLocked World.update
  split <;> simp

/-- `remove_item` only touches the inventory. -/
theorem remove_item_fields (p : Player) (i : String) :
    (p.remove_item i).1.position = p.position
    ∧ (p.remove_item i).1.health = p.health
    ∧ (p.remove_item i).1.turns = p.turns
    ∧ (p.remove_item i).1.name = p.name := by
  unfold Player.remove_item
  split <;> simp

/-- `add_item` only touches the inventory. -/
theorem add_item_fields (p : Player) (i : String) :
    (p.add_item i).1.position = p.position
    ∧ (p.add_item i).1.health = p.health
    ∧ (p.add_item i).1.turns = p.turns := by
  unfold Player.add_item
  split <;> simp

/-! ## C1 — win check and score -/

/-- Sample winning player for the C1 witness: at the Throne Room with the
crown, six rooms visited and two items held. -/
def sampleWinner : Player :=
  { name := "W", position := "Throne Room",
    inventory := ["Golden Crown", "Torch"], health := 100,
    visited_rooms := {"Entrance Hall", "Library", "Kitchen", "Dungeon",
                      "Secret Passage", "Throne Room"},
    turns := 9 }

/-- C1: the win check returns true iff the player stands in the Throne Room
holding the Golden Crown, and the reported score is 10 times the visited-room
count plus 5 times the inventory size (so 6 visited rooms and 2 held items
score 70). -/
theorem win_check_correct (p : Player) :
    (check_win_condition p = true ↔
      (p.position = "Throne Room" ∧ "Golden Crown" ∈ p.inventory))
    ∧ (check_win_condition p = true →
        final_score p = 10 * p.visited_rooms.card + 5 * p.inventory.length)
    ∧ (p.visited_rooms.card = 6 → p.inventory.length = 2 → final_score p = 70) := by
  refine ⟨?_, ?_, ?_⟩
  · simp [check_win_condition, Player.has_item]
  · intro _
    unfold final_score
    ring
  · intro h1 h2
    unfold final_score
    rw [h1, h2]

/-- C1 witness: the sample winner satisfies the win check and scores 70. -/
theorem win_check_correct_witness :
    check_win_condition sampleWinner = true ∧ final_score sampleWinner = 70 :=
  ⟨by decide, (win_check_correct sampleWinner).2.2 (by decide) (by decide)⟩

/-! ## C8 — Healing Herb -/

/-- C8: using a held Healing Herb sets health to `min 100 (health + 30)` and
consumes one herb; at health 80 the result is 100, at health 100 it stays 100
with the herb still consumed. -/
theorem use_healing_herb (p : Player) (hmem : "Healing Herb" ∈ p.inventory) :
    ((use_item p "Healing Herb").1.health = min 100 (p.health + 30))
    ∧ ((use_item p "Healing Herb").1.inventory = p.inventory.erase "Healing Herb")
    ∧ (p.health = 80 → (use_item p "Healing Herb").1.health = 100)
    ∧ (p.health = 100 → (use_item p "Healing Herb").1.health = 100) := by
  have hne : p.inventory.isEmpty = false := by
    cases hcase : p.inventory with
    | nil =>
      rw [hcase] at hmem
      simp at hmem
    | cons a l => rfl
  have hhas : p.has_item "Healing Herb" = true := by
    simpa [Player.has_item] using hmem
  have hmain : (use_item p "Healing Herb").1
      = { p with health := min 100 (p.health + 30),
                 inventory := p.inventory.erase "Healing Herb" } := by
    simp [use_item, hne, hhas, Player.remove_item, hmem]
  refine ⟨by rw [hmain], by rw [hmain], ?_, ?_⟩
  · intro h80
    rw [hmain]
    show min 100 (p.health + 30) = 100
    rw [h80]
    decide
  · intro h100
    rw [hmain]
    show min 100 (p.health + 30) = 100
    rw [h100]
    decide

/-- Sample player for the C8 witness: health 80 with one Healing Herb. -/
def herbHolder : Player :=
  { name := "H", position := "Kitchen", inventory := ["Healing Herb"],
    health := 80, visited_rooms := {"Kitchen"}, turns := 0 }

/-- C8 witness: at health 80 the herb heals to exactly 100 and leaves the bag
empty. -/
theorem use_healing_herb_witness :
    (use_item herbHolder "Healing Herb").1.health = 100
    ∧ (use_item herbHolder "Healing Herb").1.inventory = [] :=
  ⟨(use_healing_herb herbHolder (by decide)).2.2.1 (by decide), by decide⟩

/-! ## C9 — serialization round-trip -/

/-- C9: serialising a player whose name is non-empty with `to_dict` and
deserialising with `from_dict` reproduces the player exactly — name, position,
inventory order, health, visited set and turns. -/
theorem player_roundtrip (p : Player) (h : p.name ≠ "") :
    Player.from_dict (Player.to_dict p) = some p := by
  obtain ⟨n, pos, inv, hp, vis, t⟩ := p
  simp only [Player.from_dict, Player.to_dict] at *
  simp [h, Finset.sort_toFinset]

/-- Sample player for the C9 witness: non-empty inventory, partial visited
set, 17 turns taken. -/
def midgamePlayer : Player :=
  { name := "R", position := "Study", inventory := ["Old Book", "Note"],
    health := 73, visited_rooms := {"Entrance Hall", "Library", "Study"},
    turns := 17 }

/-- C9 witness: the mid-game sample player round-trips through the
dictionary representation. -/
theorem player_roundtrip_witness :
    Player.from_dict (Player.to_dict midgamePlayer) = some midgamePlayer :=
  player_roundtrip midgamePlayer (by decide)

/-! ## C2 — inventory capacity -/

/-- One Take attempt keeps the inventory within the 4-item bound. -/
theorem pick_up_item_length_le (p : Player) (w : World) (i : String)
    (h : p.inventory.length ≤ 4) :
    (pick_up_item p w i).1.inventory.length ≤ 4 := by
  unfold pick_up_item
  cases hw : w p.position with
  | none => exact h
  | some room =>
    simp only
    split
    · exact h
    split
    · exact h
    split
    · exact h
    split
    · split
      · unfold Player.add_item
        split
        · next hlt =>
          simp
          omega
        · exact h
      · exact h
    · exact h

/-- Bag held by the C2 witness: already at the four-item capacity. -/
def packedPlayer : Player :=
  { name := "P", position := "Entrance Hall",
    inventory := ["Crowbar", "Old Book", "Note", "Sword"], health := 100,
    visited_rooms := {"Entrance Hall"}, turns := 0 }

/-- C2: along every sequence of Take actions from the initial game state the
inventory never exceeds 4 items, and (for the bag sizes the game can reach)
`add_item` returns false exactly when 4 items are already held, otherwise
appending the item at the end and returning true. -/
theorem inventory_capacity (name : String) (items : List String)
    (p : Player) (item : String) (hp : p.inventory.length ≤ 4) :
    (takeRun (initialPlayer name) initial_rooms items).1.inventory.length ≤ 4
    ∧ ((p.add_item item).2 = false ↔ p.inventory.length = 4)
    ∧ ((p.add_item item).2 = true →
         (p.add_item item).1.inventory = p.inventory ++ [item]) := by
  refine ⟨?_, ?_, ?_⟩
  · have hrun : ∀ (is : List String) (q : Player) (w : World),
        q.inventory.length ≤ 4 → (takeRun q w is).1.inventory.length ≤ 4 := by
      intro is
      induction is with
      | nil => intro q w h; exact h
      | cons i rest ih =>
        intro q w h
        exact ih _ _ (pick_up_item_length_le q w i h)
    exact hrun items (initialPlayer name) initial_rooms (by simp [initialPlayer])
  · unfold Player.add_item
    split
    · next hlt =>
      simp
      omega
    · next hge =>
      simp
      omega
  · unfold Player.add_item
    split
    · simp
    · simp

/-- C2 witness: a player at capacity is refused a fifth item, while the fresh
player receives the first item at the end of the bag. -/
theorem inventory_capacity_witness :
    (packedPlayer.add_item "Torch").2 = false
    ∧ ((initialPlayer "A").add_item "Torch").1.inventory = ["Torch"] :=
  ⟨(inventory_capacity "A" [] packedPlayer "Torch" (by decide)).2.1.mpr (by decide),
   (inventory_capacity "A" [] (initialPlayer "A") "Torch" (by decide)).2.2 (by decide)⟩

/-! ## C3 — moving into the locked Armory -/

/-- C3: a Move whose destination is the locked Armory succeeds exactly when
the Rusty Key is held — then the key is consumed, the lock cleared and the
player placed in the Armory; without the key the move is rejected with the
locked outcome and player and world are returned unchanged. -/
theorem move_locked_armory (p : Player) (w : World) (d : String) (room : Room)
    (hroom : w p.position = some room)
    (hdest : room.exits.lookup d = some "Armory")
    (hlocked : armoryLocked w = true) :
    (p.has_item "Rusty Key" = true →
       (move_player p w d).2.2 = Outcome.moved
       ∧ (move_player p w d).1.position = "Armory"
       ∧ (move_player p w d).1.inventory = p.inventory.erase "Rusty Key"
       ∧ armoryLocked (move_player p w d).2.1 = false)
    ∧ (p.has_item "Rusty Key" = false →
       move_player p w d = (p, w, Outcome.locked)) := by
  constructor
  · intro hkey
    have hmem : "Rusty Key" ∈ p.inventory := by
      simpa [Player.has_item] using hkey
    simp only [move_player, hroom, hdest, hlocked, hkey, and_true]
    simp [Player.remove_item, hmem, armoryLocked_unlockArmory]
  · intro hkey
    simp [move_player, hroom, hdest, hlocked, hkey]

/-- Player for the C3 witness: standing in the Courtyard with the key. -/
def keyHolder : Player :=
  { name := "K", position := "Courtyard", inventory := ["Torch", "Rusty Key"],
    health := 100, visited_rooms := {"Entrance Hall", "Courtyard"}, turns := 2 }

/-- Player for the C3 witness: standing in the Courtyard without the key. -/
def keylessWanderer : Player :=
  { name := "L", position := "Courtyard", inventory := ["Torch"],
    health := 100, visited_rooms := {"Entrance Hall", "Courtyard"}, turns := 2 }

/-- C3 witness: from the Courtyard, moving west with the key enters the
Armory, consumes the key and clears the lock; without the key the move is
rejected and nothing changes. -/
theorem move_locked_armory_witness :
    ((move_player keyHolder initial_rooms "west").2.2 = Outcome.moved
     ∧ (move_player keyHolder initial_rooms "west").1.position = "Armory"
     ∧ (move_player keyHolder initial_rooms "west").1.inventory = ["Torch"]
     ∧ armoryLocked (move_player keyHolder initial_rooms "west").2.1 = false)
    ∧ move_player keylessWanderer initial_rooms "west"
        = (keylessWanderer, initial_rooms, Outcome.locked) := by
  constructor
  · have h := (move_locked_armory keyHolder initial_rooms "west"
      (Option.get (initial_rooms "Courtyard") (by decide)) rfl rfl rfl).1 rfl
    exact ⟨h.1, h.2.1, by rw [h.2.2.1]; decide, h.2.2.2⟩
  · exact (move_locked_armory keylessWanderer initial_rooms "west"
      (Option.get (initial_rooms "Courtyard") (by decide)) rfl rfl rfl).2 rfl

/-! ## C6 — Take with a full bag -/

/-- C6: a Take naming an item present in the current room, attempted with a
full bag (and with neither the locked-Armory nor the darkness guard firing),
reports the bag-full failure and returns player and world unchanged. -/
theorem take_bag_full_unchanged (p : Player) (w : World) (item : String)
    (room : Room) (hroom : w p.position = some room)
    (hlocked : ¬(p.position = "Armory" ∧ room.locked))
    (hdark : ¬(p.position = "Dungeon" ∧ room.dark ∧ ¬ p.has_item "Torch"))
    (hmem : item ∈ room.items) (hfull : p.inventory.length = 4) :
    pick_up_item p w item = (p, w, Outcome.bagFull) := by
  have hne : room.items.isEmpty = false := by
    cases hcase : room.items with
    | nil =>
      rw [hcase] at hmem
      simp at hmem
    | cons a l => rfl
  have hcon : room.items.contains item = true := by simpa using hmem
  have hadd : (p.add_item item).2 = false := by
    unfold Player.add_item
    split
    · next hlt => omega
    · rfl
  simp only [Bool.not_eq_true] at hdark
  simp [pick_up_item, hroom, hne, hlocked, hdark, hcon, hadd, hmem]

/-- C6 witness: the packed player standing over the Entrance Hall torch is
told the bag is full and picks up nothing. -/
theorem take_bag_full_unchanged_witness :
    pick_up_item packedPlayer initial_rooms "Torch"
      = (packedPlayer, initial_rooms, Outcome.bagFull) :=
  take_bag_full_unchanged packedPlayer initial_rooms "Torch"
    (Option.get (initial_rooms "Entrance Hall") (by decide))
    rfl (by decide) (by decide) (by decide) (by decide)

/-! ## C7 — darkness gating in the Dungeon -/

/-- Torchless player standing in the Dungeon, for the C7 statements. -/
def gropingPlayer : Player :=
  { name := "G", position := "Dungeon", inventory := ["Sword"], health := 100,
    visited_rooms := {"Entrance Hall", "Kitchen", "Dungeon"}, turns := 3 }

/-- C7 counterexample: a Take in the torchless dark Dungeon does NOT report
"too dark" — `pick_up_item` tests for an empty room first, and the Dungeon
holds no items, so it reports "nothing here" instead. -/
theorem dungeon_take_not_too_dark_cex :
    gropingPlayer.has_item "Torch" = false
    ∧ (pick_up_item gropingPlayer initial_rooms "Sword").2.2 = Outcome.nothingHere
    ∧ Outcome.nothingHere ≠ Outcome.tooDark := ⟨rfl, rfl, by decide⟩

/-- The Dungeon room with an item placed in it, a hypothetical world state
exercising the darkness guard of Take (the shipped world keeps the Dungeon
empty, so its emptiness check fires first). -/
def stockedDungeon : World :=
  initial_rooms.update "Dungeon"
    { (Option.get (initial_rooms "Dungeon") (by decide)) with items := ["Bone"] }

/-- Torch-bearing player standing in the Dungeon, for the C7 witness. -/
def torchBearer : Player :=
  { name := "T", position := "Dungeon", inventory := ["Torch"], health := 100,
    visited_rooms := {"Entrance Hall", "Kitchen", "Dungeon"}, turns := 3 }

/-- C7 amended: in a dark room ("Dungeon") without the Torch, Look reports too
dark and mutates nothing, and Take reports too dark and mutates nothing
whenever the room holds any item (with no items the empty-room check fires
first and Take reports "nothing here" instead — the shipped Dungeon is empty);
holding the Torch, Look proceeds normally and Take succeeds on a present item
when the bag has room. -/
theorem darkness_gating (p : Player) (w : World) (room : Room) (item : String)
    (hroom : w p.position = some room) (hpos : p.position = "Dungeon")
    (hdark : room.dark = true) :
    (p.has_item "Torch" = false →
       look_around p w = Outcome.tooDark
       ∧ (room.items ≠ [] → pick_up_item p w item = (p, w, Outcome.tooDark)))
    ∧ (p.has_item "Torch" = true →
       look_around p w = Outcome.ok
       ∧ (item ∈ room.items → p.inventory.length < 4 →
            (pick_up_item p w item).2.2 = Outcome.itemTaken
            ∧ (pick_up_item p w item).1.inventory = p.inventory ++ [item])) := by
  have hroom2 : w "Dungeon" = some room := by rw [← hpos]; exact hroom
  have hnotarm : ¬(p.position = "Armory" ∧ room.locked) := by
    rw [hpos]
    simp
  constructor
  · intro htorch
    constructor
    · simp [look_around, hroom, hroom2, hpos, hdark, htorch]
    · intro hne
      have hne2 : room.items.isEmpty = false := by
        cases hcase : room.items with
        | nil => exact absurd hcase hne
        | cons a l => rfl
      simp [pick_up_item, hroom, hroom2, hne, hne2, hnotarm, hpos, hdark, htorch]
  · intro htorch
    constructor
    · simp [look_around, hroom, hroom2, hpos, hdark, htorch]
    · intro hmem hlen
      have hne : room.items ≠ [] := List.ne_nil_of_mem hmem
      have hne2 : room.items.isEmpty = false := by
        cases hcase : room.items with
        | nil => exact absurd hcase hne
        | cons a l => rfl
      have hcon : room.items.contains item = true := by simpa using hmem
      have hadd : (p.add_item item).2 = true := by
        unfold Player.add_item
        split
        · rfl
        · omega
      have haddinv : (p.add_item item).1.inventory = p.inventory ++ [item] := by
        unfold Player.add_item
        split
        · rfl
        · omega
      simp [pick_up_item, hroom, hroom2, hne, hne2, hnotarm, hpos, hdark,
            htorch, hmem, hcon, hadd, haddinv]

/-- C7 witness: the torchless player looking around the Dungeon is told it is
too dark; with a torch, looking succeeds and taking an item from a stocked
Dungeon succeeds and stores it. -/
theorem darkness_gating_witness :
    look_around gropingPlayer initial_rooms = Outcome.tooDark
    ∧ look_around torchBearer stockedDungeon = Outcome.ok
    ∧ (pick_up_item torchBearer stockedDungeon "Bone").2.2 = Outcome.itemTaken
    ∧ (pick_up_item torchBearer stockedDungeon "Bone").1.inventory
        = ["Torch", "Bone"] := by
  refine ⟨?_, ?_, ?_, ?_⟩
  · exact ((darkness_gating gropingPlayer initial_rooms
      (Option.get (initial_rooms "Dungeon") (by decide)) "Sword"
      rfl rfl rfl).1 rfl).1
  · exact ((darkness_gating torchBearer stockedDungeon
      { (Option.get (initial_rooms "Dungeon") (by decide)) with items := ["Bone"] }
      "Bone" rfl rfl rfl).2 rfl).1
  · exact (((darkness_gating torchBearer stockedDungeon
      { (Option.get (initial_rooms "Dungeon") (by decide)) with items := ["Bone"] }
      "Bone" rfl rfl rfl).2 rfl).2 (by decide) (by decide)).1
  · have h := (((darkness_gating torchBearer stockedDungeon
      { (Option.get (initial_rooms "Dungeon") (by decide)) with items := ["Bone"] }
      "Bone" rfl rfl rfl).2 rfl).2 (by decide) (by decide)).2
    rw [h]
    decide

/-! ## C5 — late-game health decay and the lost state -/

/-- C5: while the session is active, once the loop's turn counter has passed
50 every action other than quitting or winning costs the player 5 health; the
step lands in the lost state whenever the resulting health is at most 0, and
the lost state accepts no further actions. -/
theorem late_game_health_decay (s : GameState) (a : Action)
    (hact : s.status = Status.active) (hturn : 50 ≤ s.turns)
    (hq : a ≠ Action.quit)
    (hwin : check_win_condition (appActionEffect s.player s.world a).1 = false) :
    ((appStep s a).player.health
       = (appActionEffect s.player s.world a).1.health - 5)
    ∧ ((appStep s a).player.health ≤ 0 → (appStep s a).status = Status.lost)
    ∧ (∀ (t : GameState) (b : Action), t.status = Status.lost → appStep t b = t) := by
  have h50 : 50 < s.turns + 1 := by omega
  have hred : appStep s a =
      if (appActionEffect s.player s.world a).1.health - 5 ≤ 0 then
        { player := {(appActionEffect s.player s.world a).1 with
            health := (appActionEffect s.player s.world a).1.health - 5},
          world := (appActionEffect s.player s.world a).2, turns := s.turns + 1,
          status := Status.lost }
      else
        { player := {(appActionEffect s.player s.world a).1 with
            health := (appActionEffect s.player s.world a).1.health - 5},
          world := (appActionEffect s.player s.world a).2, turns := s.turns + 1,
          status := Status.active } := by
    simp [appStep, hact, hq, hwin, h50]
  refine ⟨?_, ?_, ?_⟩
  · rw [hred]
    split <;> rfl
  · rw [hred]
    split
    · intro _
      rfl
    · next hcond =>
      intro hle
      exact absurd hle hcond
  · intro t b ht
    simp [appStep, ht]

/-- Active state at the 50-turn mark, for the C5 witness. -/
def wearyState : GameState :=
  { player := initialPlayer "Z", world := initial_rooms, turns := 50,
    status := Status.active }

/-- C5 witness: the 51st action (a Look) drains the fresh player from 100 to
95 health, and a lost session ignores a subsequent Look. -/
theorem late_game_health_decay_witness :
    (appStep wearyState Action.look).player.health = 95
    ∧ appStep { wearyState with status := Status.lost } Action.look
        = { wearyState with status := Status.lost } := by
  have h := late_game_health_decay wearyState Action.look rfl (by decide)
    (by decide) rfl
  constructor
  · rw [h.1]
    decide
  · exact h.2.2 _ Action.look rfl

/-! ## C4 — turn counting -/

/-- The `main.py` move increments the turn counter exactly when it succeeds. -/
theorem move_player_main_turns (p : Player) (w : World) (d : String) :
    (move_player_main p w d).1.turns
      = if (move_player_main p w d).2.2 then p.turns + 1 else p.turns := by
  unfold move_player_main
  cases hw : w p.position with
  | none => rfl
  | some room =>
    simp only
    cases hd : room.exits.lookup d with
    | none => rfl
    | some np =>
      simp only
      split
      · split
        · have hrm := (remove_item_fields p "Rusty Key").2.2.1
          simp [hrm]
        · rfl
      · simp

/-- Take never touches the turn counter. -/
theorem pick_up_item_turns (p : Player) (w : World) (i : String) :
    (pick_up_item p w i).1.turns = p.turns := by
  unfold pick_up_item
  cases hw : w p.position with
  | none => rfl
  | some room =>
    simp only
    split_ifs <;> first
      | rfl
      | exact (add_item_fields p i).2.2

/-- Use never touches the turn counter. -/
theorem use_item_turns (p : Player) (i : String) :
    (use_item p i).1.turns = p.turns := by
  unfold use_item
  split_ifs <;> first
    | rfl
    | exact (remove_item_fields _ "Healing Herb").2.2.1

/-- Talk never touches the turn counter. -/
theorem talk_to_character_turns (p : Player) :
    (talk_to_character p).1.turns = p.turns := by
  unfold talk_to_character
  split_ifs <;> first
    | rfl
    | exact (remove_item_fields p "Healing Herb").2.2.1

/-- Turn change of one `main.py` handler call: one for a successful move,
zero otherwise. -/
theorem mainApply_turns (p : Player) (w : World) (a : MAction) :
    (mainApply p w a).1.turns
      = p.turns + (match a with
          | MAction.move d => if (move_player_main p w d).2.2 then 1 else 0
          | _ => 0) := by
  cases a with
  | move d =>
    show (move_player_main p w d).1.turns
      = p.turns + if (move_player_main p w d).2.2 then 1 else 0
    rw [move_player_main_turns]
    split <;> omega
  | take i =>
    show (pick_up_item p w i).1.turns = p.turns + 0
    rw [pick_up_item_turns]
    omega
  | use i =>
    show (use_item p i).1.turns = p.turns + 0
    rw [use_item_turns]
    omega
  | talk =>
    show (talk_to_character p).1.turns = p.turns + 0
    rw [talk_to_character_turns]
    omega
  | look => rfl

/-- C4 counterexample: one Look action from the initial state leaves the
`game_loop` turn counter of `src/app.py` at 1 although no successful Move has
occurred — that counter counts every action, not successful Moves. -/
theorem app_turn_counter_cex :
    (appRun (initialState "Ann") [Action.look]).turns = 1
    ∧ appSuccMoves (initialState "Ann") [Action.look] = 0 := ⟨rfl, rfl⟩

/-- C4 amended: in `src/main.py` the player's `turns` field increments exactly
on each successful Move and on no other action, so after any handler sequence
it equals the number of successful Moves; in `src/app.py` the loop counter
instead increments on every processed action, successful Move or not. -/
theorem turns_count_successful_moves (acts : List MAction) :
    (∀ (p : Player) (w : World),
       (mainRun p w acts).1.turns = p.turns + mainSuccMoves p w acts)
    ∧ (∀ (s : GameState) (a : Action), s.status = Status.active →
       (appStep s a).turns = s.turns + 1) := by
  constructor
  · induction acts with
    | nil =>
      intro p w
      simp [mainRun, mainSuccMoves]
    | cons a rest ih =>
      intro p w
      show (mainRun (mainApply p w a).1 (mainApply p w a).2 rest).1.turns = _
      rw [ih, mainApply_turns]
      show _ = p.turns + (_ + mainSuccMoves (mainApply p w a).1 (mainApply p w a).2 rest)
      rw [Nat.add_assoc]
  · intro s a h
    simp only [appStep, h]
    split_ifs <;> first
      | rfl
      | next hcontra => exact absurd rfl hcontra

/-- C4 witness: a successful first Move from the Entrance Hall leaves the
`app.py` loop counter at 1 (via the active-session hypothesis), and the
`main.py` counter likewise counts that one successful Move. -/
theorem turns_count_successful_moves_witness :
    (appStep (initialState "B") (Action.move "north")).turns = 1
    ∧ (mainRun (initialPlayer "B") initial_rooms [MAction.move "north"]).1.turns = 1 := by
  constructor
  · exact (turns_count_successful_moves []).2 (initialState "B")
      (Action.move "north") rfl
  · have h := (turns_count_successful_moves [MAction.move "north"]).1
      (initialPlayer "B") initial_rooms
    rw [h]
    decide

/-! ## C10 — in the Armory implies unlocked -/

/-- The invariant behind C10: whoever stands in the Armory finds it
unlocked. -/
def ArmoryInv (s : GameState) : Prop :=
  s.player.position = "Armory" → armoryLocked s.world = false

/-- Take leaves the player where they are. -/
theorem pick_up_item_position (p : Player) (w : World) (i : String) :
    (pick_up_item p w i).1.position = p.position := by
  unfold pick_up_item
  cases hw : w p.position with
  | none => rfl
  | some room =>
    simp only
    split_ifs <;> first
      | rfl
      | exact (add_item_fields p i).1

/-- Take never changes the Armory lock: its only world write rewrites the
item list of the current room, keeping that room's `locked` field. -/
theorem pick_up_item_armoryLocked (p : Player) (w : World) (i : String) :
    armoryLocked (pick_up_item p w i).2.1 = armoryLocked w := by
  unfold pick_up_item
  cases hw : w p.position with
  | none => rfl
  | some room =>
    simp only
    split_ifs <;> try rfl
    rw [armoryLocked_update]
    split
    · next heq =>
      rw [← heq] at hw
      simp [armoryLocked, hw]
    · rfl

/-- Use leaves the player where they are. -/
theorem use_item_position (p : Player) (i : String) :
    (use_item p i).1.position = p.position := by
  unfold use_item
  split_ifs <;> first
    | rfl
    | exact (remove_item_fields _ "Healing Herb").1

/-- Talk leaves the player where they are. -/
theorem talk_to_character_position (p : Player) :
    (talk_to_character p).1.position = p.position := by
  unfold talk_to_character
  split_ifs <;> first
    | rfl
    | exact (remove_item_fields p "Healing Herb").1

/-- Move preserves the invariant: entering the Armory either found it already
unlocked or unlocked it with the key on the way in. -/
theorem move_player_inv (p : Player) (w : World) (d : String)
    (h : p.position = "Armory" → armoryLocked w = false) :
    (move_player p w d).1.position = "Armory" →
      armoryLocked (move_player p w d).2.1 = false := by
  unfold move_player
  cases hw : w p.position with
  | none => exact h
  | some room =>
    simp only
    cases hd : room.exits.lookup d with
    | none => exact h
    | some np =>
      simp only
      split
      · next hcond =>
        split
        · intro _
          exact armoryLocked_unlockArmory w
        · exact h
      · next hcond =>
        intro hpos
        simp only at hpos
        rw [hpos] at hcond
        simp at hcond
        exact hcond

/-- The dispatch block of one `game_loop` iteration preserves the
invariant. -/
theorem appActionEffect_inv (p : Player) (w : World) (a : Action)
    (h : p.position = "Armory" → armoryLocked w = false) :
    (appActionEffect p w a).1.position = "Armory" →
      armoryLocked (appActionEffect p w a).2 = false := by
  cases a with
  | move d => exact move_player_inv p w d h
  | take i =>
    intro hpos
    show armoryLocked (pick_up_item p w i).2.1 = false
    rw [pick_up_item_armoryLocked]
    have hpos2 : (pick_up_item p w i).1.position = "Armory" := hpos
    rw [pick_up_item_position] at hpos2
    exact h hpos2
  | use i =>
    intro hpos
    have hpos2 : (use_item p i).1.position = "Armory" := hpos
    rw [use_item_position] at hpos2
    exact h hpos2
  | talk =>
    intro hpos
    have hpos2 : (talk_to_character p).1.position = "Armory" := hpos
    rw [talk_to_character_position] at hpos2
    exact h hpos2
  | look => exact h
  | bag => exact h
  | map => exact h
  | quit => exact h
  | invalid => exact h

/-- A full `game_loop` iteration preserves the invariant. -/
theorem appStep_inv (s : GameState) (a : Action) (h : ArmoryInv s) :
    ArmoryInv (appStep s a) := by
  unfold ArmoryInv at *
  unfold appStep
  split
  · exact h
  · split
    · exact h
    · have h2 := appActionEffect_inv s.player s.world a h
      split
      · exact h2
      · split
        · split
          · exact h2
          · exact h2
        · exact h2

/-- The invariant holds along every action sequence. -/
theorem appRun_inv (acts : List Action) :
    ∀ s : GameState, ArmoryInv s → ArmoryInv (appRun s acts) := by
  induction acts with
  | nil => intro s h; exact h
  | cons a rest ih =>
    intro s h
    exact ih _ (appStep_inv s a h)

/-- Under the invariant, the Take handler's locked-Armory branch is dead: no
Take can report the locked outcome. -/
theorem pick_up_item_never_locked (p : Player) (w : World) (i : String)
    (h : p.position = "Armory" → armoryLocked w = false) :
    (pick_up_item p w i).2.2 ≠ Outcome.locked := by
  unfold pick_up_item
  cases hw : w p.position with
  | none => simp
  | some room =>
    simp only
    split_ifs with h1 h2 h3 h4 h5 <;> try simp
    exfalso
    have hfalse := h h2.1
    unfold armoryLocked at hfalse
    rw [h2.1] at hw
    rw [hw] at hfalse
    simp at hfalse
    simp [hfalse] at h2

/-- C10: in every state reachable from the initial game state by any action
sequence, standing in the Armory implies the Armory is unlocked, and
consequently no Take can ever report the locked outcome. -/
theorem armory_entry_implies_unlocked (name : String) (acts : List Action) :
    ((appRun (initialState name) acts).player.position = "Armory" →
       armoryLocked (appRun (initialState name) acts).world = false)
    ∧ ∀ item : String,
        (pick_up_item (appRun (initialState name) acts).player
          (appRun (initialState name) acts).world item).2.2 ≠ Outcome.locked := by
  have hinit : ArmoryInv (initialState name) := by
    intro hpos
    simp [initialState, initialPlayer] at hpos
  have hinv := appRun_inv acts (initialState name) hinit
  exact ⟨hinv, fun item => pick_up_item_never_locked _ _ item hinv⟩

/-- Action sequence reaching the Armory: fetch the key from the Library, walk
to the Courtyard and unlock the door going west. -/
def armoryPath : List Action :=
  [Action.move "east", Action.take "Rusty Key", Action.move "west",
   Action.move "north", Action.move "west"]

/-- C10 witness: the key-fetching route ends inside the Armory and finds it
unlocked. -/
theorem armory_entry_implies_unlocked_witness :
    (appRun (initialState "Ann") armoryPath).player.position = "Armory"
    ∧ armoryLocked (appRun (initialState "Ann") armoryPath).world = false :=
  ⟨rfl, (armory_entry_implies_unlocked "Ann" armoryPath).1 rfl⟩

end CastleEscape
